import Mathlib

/-!
Verification development for the tenant-scoped HTTP request pipeline of a
multi-tenant Databricks MCP server (TypeScript source).

The embedding below translates the source's data model and operations:
  - JSON values and JavaScript truthiness (the source branches on falsy values),
  - Number.parseInt and JSON.stringify as used by the pipeline,
  - the credential record and its validation (types/env.ts),
  - the DatabricksClientImpl constructor, getAuthHeaders, request, the
    get/post/put/patch/delete wrappers and the list facades (client.ts),
  - the /mcp fetch handler's validate-then-serve control flow (index.ts).

The HTTP transport is modelled as a pure function from outbound requests to
responses; a response body is modelled by how JSON.parse treats the text
returned by response.text(): empty, parsed to a JSON value, or rejected.
-/

namespace DatabricksMcp

/-- JSON values as produced by a successful JSON.parse. Numbers are modelled
as integers (all numbers appearing in the verified properties are integral). -/
inductive Json where
  | null : Json
  | bool (b : Bool) : Json
  | num (n : Int) : Json
  | str (s : String) : Json
  | arr (xs : List Json) : Json
  | obj (fields : List (String × Json)) : Json
deriving Repr

/-- JavaScript truthiness of a JSON value: null, false, 0 and the empty
string are falsy; arrays and objects are always truthy. -/
def Json.truthy : Json → Bool
  | .null => false
  | .bool b => b
  | .num n => n != 0
  | .str s => s != ""
  | .arr _ => true
  | .obj _ => true

/-- JavaScript property access v.key on a JSON value, for values on which it
does not throw: an own property of an object, undefined (none) otherwise.
Access on null throws a TypeError and is handled at the call sites. -/
def Json.objGet (j : Json) (key : String) : Option Json :=
  match j with
  | .obj fields => (fields.find? (fun p => p.1 == key)).map (fun p => p.2)
  | _ => none

/-- The JavaScript expression v [[or]] dflt: the property value when present and
truthy, the default otherwise. -/
def jsOr (v : Option Json) (dflt : Json) : Json :=
  match v with
  | some x => if x.truthy then x else dflt
  | none => dflt

/-- Decimal digit characters of a natural number, most significant first. -/
def natDigitsRepr (n : Nat) : List Char :=
  if n < 10 then [Nat.digitChar n]
  else natDigitsRepr (n / 10) ++ [Nat.digitChar (n % 10)]
termination_by n
decreasing_by
  exact Nat.div_lt_self (by omega) (by omega)

/-- Decimal rendering of an integer, as JavaScript renders integral numbers. -/
def intRepr (n : Int) : String :=
  if n < 0 then "-" ++ ⟨natDigitsRepr (-n).toNat⟩ else ⟨natDigitsRepr n.toNat⟩

/-- JSON string escaping for the characters JSON.stringify always escapes. -/
def escapeChar (c : Char) : String :=
  if c = '"' then "\\\""
  else if c = '\\' then "\\\\"
  else if c = '\n' then "\\n"
  else if c = '\t' then "\\t"
  else if c = '\r' then "\\r"
  else String.singleton c

/-- Escape every character of a string for inclusion in a JSON string literal. -/
def escapeString (s : String) : String :=
  s.data.foldl (fun acc c => acc ++ escapeChar c) ""

mutual

/-- JSON.stringify on a JSON value. -/
def Json.stringify : Json → String
  | .null => "null"
  | .bool true => "true"
  | .bool false => "false"
  | .num n => intRepr n
  | .str s => "\"" ++ escapeString s ++ "\""
  | .arr xs => "[" ++ stringifyArr xs ++ "]"
  | .obj fs => "\x7b" ++ stringifyFields fs ++ "\x7d"

/-- Comma-separated stringification of array elements. -/
def stringifyArr : List Json → String
  | [] => ""
  | [x] => Json.stringify x
  | x :: y :: xs => Json.stringify x ++ "," ++ stringifyArr (y :: xs)

/-- Comma-separated stringification of object fields. -/
def stringifyFields : List (String × Json) → String
  | [] => ""
  | [(k, v)] => "\"" ++ escapeString k ++ "\":" ++ Json.stringify v
  | (k, v) :: f :: fs =>
      "\"" ++ escapeString k ++ "\":" ++ Json.stringify v ++ "," ++ stringifyFields (f :: fs)

end

/-- Number.parseInt(s, 10): skip leading whitespace, read an optional sign and
then the longest prefix of decimal digits; NaN (modelled as none) when no digit
is read. Trailing non-digit characters are ignored. -/
def parseIntJs (s : String) : Option Int :=
  let cs := s.data.dropWhile Char.isWhitespace
  let signed : Int × List Char :=
    match cs with
    | '-' :: rest => (-1, rest)
    | '+' :: rest => (1, rest)
    | _ => (1, cs)
  let ds := signed.2.takeWhile Char.isDigit
  if ds.isEmpty then none
  else some (signed.1 * (ds.foldl (fun a c => 10 * a + (c.toNat - 48)) 0 : Nat))

/-- ASCII lower-casing of one character (header names are ASCII). -/
def lowerChar (c : Char) : Char :=
  if 'A' ≤ c ∧ c ≤ 'Z' then Char.ofNat (c.toNat + 32) else c

/-- ASCII lower-casing of a string. -/
def lowerStr (s : String) : String :=
  ⟨s.data.map lowerChar⟩

/-- Headers.get of the fetch API: case-insensitive lookup, null (none) when
the header is absent. -/
def headersGet (hs : List (String × String)) (key : String) : Option String :=
  (hs.find? (fun p => lowerStr p.1 == lowerStr key)).map (fun p => p.2)

/-- Lookup of a key in a plain JavaScript object represented as an association
list in which later spread entries were placed first. -/
def headerLookup (hs : List (String × String)) (key : String) : Option String :=
  (hs.find? (fun p => p.1 == key)).map (fun p => p.2)

/-- Tenant credentials parsed from the X-Databricks-* request headers
(types/env.ts). -/
structure TenantCredentials where
  host : String
  token : String
  warehouseId : Option String
deriving Repr, DecidableEq

/-- Modelled from the spec: src/utils/errors.ts is not among the sources, only
its import and call sites are. The spec's NormalizedError tagged union:
AuthenticationError, RateLimitError carrying retryAfterSeconds, and ApiError
carrying httpStatus, an optional platform error code and a message. Each
constructor stores its arguments unchanged. retryAfterSeconds models a
JavaScript number where none stands for NaN; the ApiError message and code
carry whatever JSON values the pipeline extracted. -/
inductive DbError where
  | authenticationError (message : String) : DbError
  | rateLimitError (message : String) (retryAfterSeconds : Option Int) : DbError
  | apiError (message : Json) (httpStatus : Nat) (errorCode : Option Json) : DbError
deriving Repr

/-- The text of an HTTP response body, classified by how JSON.parse treats it:
empty text, text parsing to a JSON value, or text JSON.parse rejects. -/
inductive BodyText where
  | empty : BodyText
  | json (j : Json) : BodyText
  | malformed : BodyText
deriving Repr

/-- An HTTP response as observed by the pipeline: status code, response
headers, and body text. -/
structure HttpResponse where
  status : Nat
  headers : List (String × String)
  body : BodyText
deriving Repr

/-- An outbound HTTP request as handed to fetch. -/
structure OutboundRequest where
  url : String
  method : String
  headers : List (String × String)
  body : Option String
deriving Repr, DecidableEq

/-- The options argument of DatabricksClientImpl.request: method, optional
body string, extra headers (every call site passes no extra headers). -/
structure RequestOptions where
  method : String
  body : Option String
  headers : List (String × String)
deriving Repr, DecidableEq

/-- A stubbed HTTP transport: what fetch returns for an outbound request. -/
def Transport : Type := OutboundRequest → HttpResponse

/-- The outcome of one call to DatabricksClientImpl.request: a resolved value
(undefined for 204 or an empty body), a thrown normalized error, or the
JSON.parse exception a malformed 2xx body lets escape. -/
inductive RequestOutcome where
  | success (value : Option Json) : RequestOutcome
  | error (e : DbError) : RequestOutcome
  | jsonParseException : RequestOutcome
deriving Repr

/-- The client: per-tenant credentials and the normalized base URL, both set
by the constructor (client.ts, DatabricksClientImpl). -/
structure DatabricksClientImpl where
  credentials : TenantCredentials
  baseUrl : String
deriving Repr, DecidableEq

/-- The constructor's host normalization: the regex replace of one trailing
slash, removing the final character exactly when it is a slash. -/
def stripTrailingSlash (s : String) : String :=
  if s.data.getLast? = some '/' then ⟨s.data.dropLast⟩ else s

/-- createDatabricksClient: builds the client, normalizing the host. -/
def createDatabricksClient (credentials : TenantCredentials) : DatabricksClientImpl :=
  ⟨credentials, stripTrailingSlash credentials.host⟩

/-- getAuthHeaders: throws AuthenticationError on an empty (falsy) token,
otherwise returns the bearer authorization and JSON content-type headers. -/
def getAuthHeaders (token : String) : Except DbError (List (String × String)) :=
  if token = "" then
    .error (.authenticationError "No credentials provided. Include X-Databricks-Token header.")
  else
    .ok [("Authorization", "Bearer " ++ token), ("Content-Type", "application/json")]

/-- JavaScript object spread of the auth headers followed by the extra
headers: extra entries shadow auth entries, realised here by placing them
first for the first-match lookup headerLookup. -/
def mergeHeaders (auth extra : List (String × String)) : List (String × String) :=
  extra ++ auth

/-- The value passed as retryAfterSeconds on a 429 response: 60 when the
Retry-After header is absent or empty (falsy), otherwise Number.parseInt of
the header value, which is NaN (none) when unparseable. -/
def retryAfterValue (resp : HttpResponse) : Option Int :=
  match headersGet resp.headers "Retry-After" with
  | some s => if s = "" then some 60 else parseIntJs s
  | none => some 60

/-- The ApiError thrown for a non-ok status other than 429/401/403: the body
text is read and JSON.parse attempted inside a try block; property access on
the parsed value (throwing on null) and the falsy-coalescing of the message
and error fields happen inside the same try, so a parse failure, an empty
body or a null body all fall back to the generic message with no code. -/
def apiErrorOf (resp : HttpResponse) : DbError :=
  match resp.body with
  | .json .null => .apiError (.str ("API error: " ++ toString resp.status)) resp.status none
  | .json j =>
      .apiError
        (jsOr (j.objGet "message")
          (jsOr (j.objGet "error") (.str ("API error: " ++ toString resp.status))))
        resp.status
        (j.objGet "error_code")
  | _ => .apiError (.str ("API error: " ++ toString resp.status)) resp.status none

/-- The status-interpretation tail of DatabricksClientImpl.request, applied to
the response fetch returned: 429, then 401/403, then any other non-ok status,
then 204, then the body decode with its uncaught JSON.parse exception. -/
def interpretResponse (resp : HttpResponse) : RequestOutcome :=
  if resp.status = 429 then
    .error (.rateLimitError "Rate limit exceeded" (retryAfterValue resp))
  else if resp.status = 401 ∨ resp.status = 403 then
    .error (.authenticationError "Authentication failed. Check your Databricks personal access token.")
  else if ¬(200 ≤ resp.status ∧ resp.status ≤ 299) then
    .error (apiErrorOf resp)
  else if resp.status = 204 then
    .success none
  else
    match resp.body with
    | .empty => .success none
    | .json j => .success (some j)
    | .malformed => .jsonParseException

/-- The request-construction head of DatabricksClientImpl.request: the URL is
the normalized base URL concatenated with the endpoint, and getAuthHeaders is
evaluated (throwing on an empty token) while building the fetch arguments. -/
def buildOutbound (client : DatabricksClientImpl) (endpoint : String)
    (opts : RequestOptions) : Except DbError OutboundRequest :=
  match getAuthHeaders client.credentials.token with
  | .error e => .error e
  | .ok auth =>
      .ok ⟨client.baseUrl ++ endpoint, opts.method, mergeHeaders auth opts.headers, opts.body⟩

/-- DatabricksClientImpl.request against a stubbed transport. The second
component counts how many times the transport (fetch) was invoked: zero when
getAuthHeaders throws before the network call, one otherwise. -/
def runRequest (client : DatabricksClientImpl) (endpoint : String)
    (opts : RequestOptions) (transport : Transport) : RequestOutcome × Nat :=
  match buildOutbound client endpoint opts with
  | .error e => (.error e, 0)
  | .ok req => (interpretResponse (transport req), 1)

/-- The body string the post/put/patch/delete wrappers pass to request:
JSON.stringify of the payload when the payload is truthy, no body otherwise. -/
def jsBody (payload : Option Json) : Option String :=
  match payload with
  | some p => if p.truthy then some p.stringify else none
  | none => none

/-- The get wrapper: fixes the method, passes no body. -/
def clientGet (client : DatabricksClientImpl) (endpoint : String)
    (transport : Transport) : RequestOutcome × Nat :=
  runRequest client endpoint ⟨"GET", none, []⟩ transport

/-- The post wrapper: fixes the method, encodes a truthy payload. -/
def clientPost (client : DatabricksClientImpl) (endpoint : String)
    (payload : Option Json) (transport : Transport) : RequestOutcome × Nat :=
  runRequest client endpoint ⟨"POST", jsBody payload, []⟩ transport

/-- The put wrapper: fixes the method, encodes a truthy payload. -/
def clientPut (client : DatabricksClientImpl) (endpoint : String)
    (payload : Option Json) (transport : Transport) : RequestOutcome × Nat :=
  runRequest client endpoint ⟨"PUT", jsBody payload, []⟩ transport

/-- The patch wrapper: fixes the method, encodes a truthy payload. -/
def clientPatch (client : DatabricksClientImpl) (endpoint : String)
    (payload : Option Json) (transport : Transport) : RequestOutcome × Nat :=
  runRequest client endpoint ⟨"PATCH", jsBody payload, []⟩ transport

/-- The delete wrapper: fixes the method, encodes a truthy payload. -/
def clientDelete (client : DatabricksClientImpl) (endpoint : String)
    (payload : Option Json) (transport : Transport) : RequestOutcome × Nat :=
  runRequest client endpoint ⟨"DELETE", jsBody payload, []⟩ transport

/-- The outcome of a list facade: a reshaped value, a thrown normalized
error, or an uncaught exception (the propagated JSON.parse failure, or the
TypeError of reading a property of undefined or null). -/
inductive FacadeOutcome where
  | result (value : Json) : FacadeOutcome
  | error (e : DbError) : FacadeOutcome
  | exception : FacadeOutcome
deriving Repr

/-- The envelope unwrapping the list facades apply to the decoded response:
response.key when truthy, the empty array otherwise; reading the property of
an undefined result or of null throws. -/
def listUnwrap (key : String) (outcome : RequestOutcome) : FacadeOutcome :=
  match outcome with
  | .error e => .error e
  | .jsonParseException => .exception
  | .success none => .exception
  | .success (some .null) => .exception
  | .success (some j) => .result (jsOr (j.objGet key) (.arr []))

/-- listWarehouses: get the warehouses endpoint and unwrap the warehouses
envelope, defaulting to the empty array. -/
def listWarehouses (client : DatabricksClientImpl) (transport : Transport) : FacadeOutcome :=
  listUnwrap "warehouses" (clientGet client "/api/2.0/sql/warehouses" transport).1

/-- listClusters: get the clusters list endpoint and unwrap the clusters
envelope, defaulting to the empty array. -/
def listClusters (client : DatabricksClientImpl) (transport : Transport) : FacadeOutcome :=
  listUnwrap "clusters" (clientGet client "/api/2.0/clusters/list" transport).1

/-- The result of validateCredentials (types/env.ts): void or a thrown Error
with its message. -/
inductive ValidateResult where
  | ok : ValidateResult
  | error (message : String) : ValidateResult
deriving Repr, DecidableEq

/-- validateCredentials: empty host first, then empty token, each with its
own message naming the missing header. -/
def validateCredentials (c : TenantCredentials) : ValidateResult :=
  if c.host = "" then
    .error "Missing X-Databricks-Host header. Provide your Databricks workspace URL."
  else if c.token = "" then
    .error "Missing X-Databricks-Token header. Provide your Databricks personal access token."
  else .ok

/-- parseTenantCredentials: each header defaults to the empty string when
absent; an absent or empty warehouse id header becomes undefined. -/
def parseTenantCredentials (headers : List (String × String)) : TenantCredentials :=
  ⟨(headersGet headers "X-Databricks-Host").getD "",
   (headersGet headers "X-Databricks-Token").getD "",
   match headersGet headers "X-Databricks-Warehouse-Id" with
   | some s => if s = "" then none else some s
   | none => none⟩

/-- The outcome of the /mcp POST branch of the worker fetch handler. -/
inductive McpHandlerResult where
  | unauthorized (message : String) : McpHandlerResult
  | served (credentials : TenantCredentials) : McpHandlerResult
deriving Repr, DecidableEq

/-- The /mcp POST branch of the fetch handler (index.ts): parse the tenant
credentials, validate them, and either answer 401 with the validation message
or build the per-tenant server. The second component counts the outbound
Databricks HTTP requests the handler itself performs before returning: zero
on both paths, since validation precedes client construction and tool
registration sends nothing. -/
def handleMcpPost (headers : List (String × String)) : McpHandlerResult × Nat :=
  let creds := parseTenantCredentials headers
  match validateCredentials creds with
  | .error m => (.unauthorized m, 0)
  | .ok => (.served creds, 0)

/-- A sequence of pipeline calls against one client and one transport, in
order; the client holds no mutable state, so the run is a plain map. -/
def runCalls (client : DatabricksClientImpl) (transport : Transport) :
    List (String × RequestOptions) → List RequestOutcome
  | [] => []
  | d :: rest => (runRequest client d.1 d.2 transport).1 :: runCalls client transport rest


-- =============================================================================
-- Helper lemmas
-- =============================================================================

/-- Appending strings appends their character data. -/
theorem data_append (a b : String) : (a ++ b).data = a.data ++ b.data := rfl

/-- Rebuilding a string from its character data is the identity. -/
theorem mk_data (s : String) : String.mk s.data = s := rfl

/-- Two strings whose leading characters differ are different strings. -/
theorem ne_of_head (s t : String) (c d : Char) (hs : s.data.head? = some c)
    (ht : t.data.head? = some d) (hcd : c ≠ d) : s ≠ t := by
  intro h
  rw [h, ht] at hs
  exact hcd (Option.some.inj hs).symm

/-- With a non-empty token, request builds the outbound request from the base
URL, the auth headers and the options, sends it exactly once, and interprets
the response. -/
theorem runRequest_token_ok (client : DatabricksClientImpl) (endpoint : String)
    (opts : RequestOptions) (transport : Transport)
    (h : client.credentials.token ≠ "") :
    runRequest client endpoint opts transport
      = (interpretResponse (transport
          ⟨client.baseUrl ++ endpoint, opts.method,
           mergeHeaders
             [("Authorization", "Bearer " ++ client.credentials.token),
              ("Content-Type", "application/json")] opts.headers, opts.body⟩), 1) := by
  unfold runRequest buildOutbound getAuthHeaders
  rw [if_neg h]

/-- A 429 response is interpreted as a RateLimitError. -/
theorem interpretResponse_429 (resp : HttpResponse) (h : resp.status = 429) :
    interpretResponse resp
      = .error (.rateLimitError "Rate limit exceeded" (retryAfterValue resp)) := by
  unfold interpretResponse
  rw [if_pos h]

/-- A 401 or 403 response is interpreted as an AuthenticationError with the
fixed remediation message. -/
theorem interpretResponse_auth (resp : HttpResponse)
    (h : resp.status = 401 ∨ resp.status = 403) :
    interpretResponse resp
      = .error (.authenticationError
          "Authentication failed. Check your Databricks personal access token.") := by
  unfold interpretResponse
  have h429 : ¬ resp.status = 429 := by rcases h with h | h <;> omega
  rw [if_neg h429, if_pos h]

/-- Any other non-2xx response is interpreted as the extracted ApiError. -/
theorem interpretResponse_api (resp : HttpResponse)
    (h429 : resp.status ≠ 429) (h401 : resp.status ≠ 401) (h403 : resp.status ≠ 403)
    (hok : ¬(200 ≤ resp.status ∧ resp.status ≤ 299)) :
    interpretResponse resp = .error (apiErrorOf resp) := by
  unfold interpretResponse
  have hauth : ¬(resp.status = 401 ∨ resp.status = 403) := by
    intro hc
    rcases hc with hc | hc
    · exact h401 hc
    · exact h403 hc
  rw [if_neg h429, if_neg hauth, if_pos hok]

/-- A 2xx response other than 204 is decoded from its body text. -/
theorem interpretResponse_2xx (resp : HttpResponse)
    (hok : 200 ≤ resp.status ∧ resp.status ≤ 299) (h204 : resp.status ≠ 204) :
    interpretResponse resp
      = (match resp.body with
         | .empty => .success none
         | .json j => .success (some j)
         | .malformed => .jsonParseException) := by
  unfold interpretResponse
  have h429 : ¬ resp.status = 429 := by omega
  have hauth : ¬(resp.status = 401 ∨ resp.status = 403) := by omega
  rw [if_neg h429, if_neg hauth, if_neg (not_not_intro hok), if_neg h204]

/-- The digit list of a natural number is never empty. -/
theorem natDigitsRepr_ne_nil (n : Nat) : natDigitsRepr n ≠ [] := by
  unfold natDigitsRepr
  split
  · simp
  · simp

/-- The leading character of a digit list is a decimal digit. -/
theorem natDigitsRepr_head_digit (n : Nat) :
    ∃ c, (natDigitsRepr n).head? = some c ∧ c.isDigit = true := by
  induction n using Nat.strong_induction_on with
  | _ n ih =>
    unfold natDigitsRepr
    split
    · next h =>
      exact ⟨Nat.digitChar n, rfl, by
        have hall : ∀ m, m < 10 → (Nat.digitChar m).isDigit = true := by decide
        exact hall n h⟩
    · next h =>
      obtain ⟨c, hc, hd⟩ := ih (n / 10) (Nat.div_lt_self (by omega) (by omega))
      refine ⟨c, ?_, hd⟩
      cases hl : natDigitsRepr (n / 10) with
      | nil => exact absurd hl (natDigitsRepr_ne_nil _)
      | cons x xs =>
        rw [hl] at hc
        simp at hc
        simp [hc]

/-- The decimal rendering of an integer starts with a digit or a minus sign. -/
theorem intRepr_head (n : Int) :
    ∃ c, (intRepr n).data.head? = some c ∧ (c.isDigit = true ∨ c = Char.ofNat 45) := by
  unfold intRepr
  split
  · exact ⟨Char.ofNat 45, rfl, Or.inr rfl⟩
  · obtain ⟨c, hc, hd⟩ := natDigitsRepr_head_digit n.toNat
    exact ⟨c, hc, Or.inl hd⟩


/-- A character that is a digit or a minus sign is neither the letter u nor
the letter n. -/
theorem head_not_letter (c : Char) (hd : c.isDigit = true ∨ c = Char.ofNat 45) :
    c ≠ 'u' ∧ c ≠ 'n' := by
  rcases hd with hd | hd
  · constructor <;> (intro he; rw [he] at hd; exact absurd hd (by decide))
  · subst hd
    constructor <;> decide

/-- A truthy JSON payload never stringifies to the bare text undefined or to
the bare text null. -/
theorem stringify_ne_undefined_null (p : Json) (hp : p.truthy = true) :
    p.stringify ≠ "undefined" ∧ p.stringify ≠ "null" := by
  have hu : ("undefined" : String).data.head? = some 'u' := rfl
  have hn : ("null" : String).data.head? = some 'n' := rfl
  cases p with
  | null => simp [Json.truthy] at hp
  | bool b =>
    cases b with
    | false => simp [Json.truthy] at hp
    | true =>
      have h : Json.stringify (.bool true) = "true" := by simp [Json.stringify]
      constructor <;> (rw [h]; decide)
  | num n =>
    obtain ⟨c, hc, hd⟩ := intRepr_head n
    have h : Json.stringify (.num n) = intRepr n := by simp [Json.stringify]
    constructor
    · rw [h]
      exact ne_of_head _ _ c 'u' hc hu (head_not_letter c hd).1
    · rw [h]
      exact ne_of_head _ _ c 'n' hc hn (head_not_letter c hd).2
  | str s =>
    have h : Json.stringify (.str s) = "\"" ++ escapeString s ++ "\"" := by
      simp [Json.stringify]
    have hc : ("\"" ++ escapeString s ++ "\"").data.head? = some '"' := rfl
    constructor
    · rw [h]
      exact ne_of_head _ _ _ _ hc hu (by decide)
    · rw [h]
      exact ne_of_head _ _ _ _ hc hn (by decide)
  | arr xs =>
    have h : Json.stringify (.arr xs) = "[" ++ stringifyArr xs ++ "]" := by
      simp [Json.stringify]
    have hc : ("[" ++ stringifyArr xs ++ "]").data.head? = some '[' := rfl
    constructor
    · rw [h]
      exact ne_of_head _ _ _ _ hc hu (by decide)
    · rw [h]
      exact ne_of_head _ _ _ _ hc hn (by decide)
  | obj fs =>
    have h : Json.stringify (.obj fs) = "\x7b" ++ stringifyFields fs ++ "\x7d" := by
      simp [Json.stringify]
    have hc : ("\x7b" ++ stringifyFields fs ++ "\x7d").data.head? = some (Char.ofNat 123) := rfl
    constructor
    · rw [h]
      exact ne_of_head _ _ _ _ hc hu (by decide)
    · rw [h]
      exact ne_of_head _ _ _ _ hc hn (by decide)


-- =============================================================================
-- Claim theorems
-- =============================================================================

/-- C1 counterexample: for a 429 response whose Retry-After header is present
but not parseable as an integer (here the value soon), the pipeline fails with
a RateLimitError whose retryAfterSeconds is NaN (modelled none), which is not
60 as the claim states. -/
theorem c1_unparseable_retry_after_not_60 :
    (runRequest (createDatabricksClient ⟨"https://example.com", "secret", none⟩)
        "/api/2.0/clusters/list" ⟨"GET", none, []⟩
        (fun _ => ⟨429, [("Retry-After", "soon")], .empty⟩)).1
      = .error (.rateLimitError "Rate limit exceeded" none)
    ∧ (none : Option Int) ≠ some 60 := by
  constructor
  · rfl
  · decide

/-- C1 (amended): every 429 response makes the pipeline fail with
RateLimitError carrying retryAfterValue of the response; that value is 60
when the Retry-After header is absent, and the parsed integer when the header
is present and Number.parseInt accepts it. (When the header is present,
non-empty and unparseable, the carried value is NaN, not 60.) -/
theorem c1_rate_limit_retry_after (client : DatabricksClientImpl) (endpoint : String)
    (opts : RequestOptions) (resp : HttpResponse)
    (htok : client.credentials.token ≠ "") (hstatus : resp.status = 429) :
    (runRequest client endpoint opts (fun _ => resp)).1
        = .error (.rateLimitError "Rate limit exceeded" (retryAfterValue resp))
      ∧ (headersGet resp.headers "Retry-After" = none → retryAfterValue resp = some 60)
      ∧ (∀ s n, headersGet resp.headers "Retry-After" = some s → parseIntJs s = some n →
          retryAfterValue resp = some n) := by
  refine ⟨?_, ?_, ?_⟩
  · rw [runRequest_token_ok client endpoint opts _ htok]
    exact interpretResponse_429 resp hstatus
  · intro h
    unfold retryAfterValue
    rw [h]
  · intro s n hs hp
    unfold retryAfterValue
    rw [hs]
    change (if s = "" then some 60 else parseIntJs s) = some n
    by_cases he : s = ""
    · subst he
      simp [parseIntJs] at hp
    · rw [if_neg he, hp]

/-- Witness for C1: a 429 response with header Retry-After 30 yields
retryAfterSeconds 30. -/
theorem c1_rate_limit_retry_after_witness :
    (runRequest (createDatabricksClient ⟨"https://example.com", "secret", none⟩)
        "/api/2.0/sql/warehouses" ⟨"GET", none, []⟩
        (fun _ => ⟨429, [("Retry-After", "30")], .empty⟩)).1
      = .error (.rateLimitError "Rate limit exceeded" (some 30)) := by
  have h := c1_rate_limit_retry_after
    (createDatabricksClient ⟨"https://example.com", "secret", none⟩)
    "/api/2.0/sql/warehouses" ⟨"GET", none, []⟩
    ⟨429, [("Retry-After", "30")], .empty⟩ (by decide) rfl
  have h1 := h.1
  rw [h.2.2 "30" 30 rfl rfl] at h1
  exact h1

/-- C2: every 401 or 403 response makes the pipeline fail with
AuthenticationError carrying the fixed remediation message, and two such
responses with arbitrary different bodies produce the identical outcome, so
no fragment of the remote body reaches the error. -/
theorem c2_auth_error_generic (client : DatabricksClientImpl) (endpoint : String)
    (opts : RequestOptions) (resp resp2 : HttpResponse)
    (htok : client.credentials.token ≠ "")
    (h1 : resp.status = 401 ∨ resp.status = 403)
    (h2 : resp2.status = 401 ∨ resp2.status = 403) :
    (runRequest client endpoint opts (fun _ => resp)).1
        = .error (.authenticationError
            "Authentication failed. Check your Databricks personal access token.")
      ∧ (runRequest client endpoint opts (fun _ => resp)).1
        = (runRequest client endpoint opts (fun _ => resp2)).1 := by
  have e1 : (runRequest client endpoint opts (fun _ => resp)).1
      = .error (.authenticationError
          "Authentication failed. Check your Databricks personal access token.") := by
    rw [runRequest_token_ok client endpoint opts _ htok]
    exact interpretResponse_auth resp h1
  have e2 : (runRequest client endpoint opts (fun _ => resp2)).1
      = .error (.authenticationError
          "Authentication failed. Check your Databricks personal access token.") := by
    rw [runRequest_token_ok client endpoint opts _ htok]
    exact interpretResponse_auth resp2 h2
  exact ⟨e1, e1.trans e2.symm⟩

/-- Witness for C2: a 401 response carrying one body and a 403 response
carrying a different (malformed) body yield the same fixed
AuthenticationError. -/
theorem c2_auth_error_generic_witness :
    (runRequest (createDatabricksClient ⟨"https://example.com", "secret", none⟩)
        "/api/2.0/sql/warehouses" ⟨"GET", none, []⟩
        (fun _ => ⟨401, [], .json (.str "credential hint from the platform")⟩)).1
      = .error (.authenticationError
          "Authentication failed. Check your Databricks personal access token.")
    ∧ (runRequest (createDatabricksClient ⟨"https://example.com", "secret", none⟩)
        "/api/2.0/sql/warehouses" ⟨"GET", none, []⟩
        (fun _ => ⟨401, [], .json (.str "credential hint from the platform")⟩)).1
      = (runRequest (createDatabricksClient ⟨"https://example.com", "secret", none⟩)
        "/api/2.0/sql/warehouses" ⟨"GET", none, []⟩
        (fun _ => ⟨403, [], .malformed⟩)).1 :=
  c2_auth_error_generic (createDatabricksClient ⟨"https://example.com", "secret", none⟩)
    "/api/2.0/sql/warehouses" ⟨"GET", none, []⟩
    ⟨401, [], .json (.str "credential hint from the platform")⟩
    ⟨403, [], .malformed⟩ (by decide) (Or.inl rfl) (Or.inr rfl)

/-- C3: with an empty token the pipeline fails with AuthenticationError
before the transport is invoked (the invocation count is zero for every
transport); with a non-empty token the outbound request carries the bearer
authorization header and the JSON content-type header and the transport is
invoked exactly once. -/
theorem c3_empty_token_fails_fast (client : DatabricksClientImpl)
    (endpoint m : String) (b : Option String) (transport : Transport) :
    (client.credentials.token = "" →
        runRequest client endpoint ⟨m, b, []⟩ transport
          = (.error (.authenticationError
              "No credentials provided. Include X-Databricks-Token header."), 0))
      ∧ (client.credentials.token ≠ "" →
        ∃ req, buildOutbound client endpoint ⟨m, b, []⟩ = .ok req
          ∧ headerLookup req.headers "Authorization"
              = some ("Bearer " ++ client.credentials.token)
          ∧ headerLookup req.headers "Content-Type" = some "application/json"
          ∧ runRequest client endpoint ⟨m, b, []⟩ transport
              = (interpretResponse (transport req), 1)) := by
  constructor
  · intro h
    unfold runRequest buildOutbound getAuthHeaders
    rw [if_pos h]
  · intro h
    refine ⟨⟨client.baseUrl ++ endpoint, m,
      mergeHeaders
        [("Authorization", "Bearer " ++ client.credentials.token),
         ("Content-Type", "application/json")] [], b⟩, ?_, ?_, ?_, ?_⟩
    · unfold buildOutbound getAuthHeaders
      rw [if_neg h]
    · rfl
    · rfl
    · rw [runRequest_token_ok client endpoint ⟨m, b, []⟩ transport h]

/-- Witness for C3: an empty token never reaches the transport; a non-empty
token produces the two auth headers and one transport call. -/
theorem c3_empty_token_fails_fast_witness :
    (runRequest (createDatabricksClient ⟨"https://example.com", "", none⟩)
        "/api/2.0/sql/warehouses" ⟨"POST", none, []⟩
        (fun _ => ⟨200, [], .empty⟩)
      = (.error (.authenticationError
          "No credentials provided. Include X-Databricks-Token header."), 0))
    ∧ (∃ req, buildOutbound (createDatabricksClient ⟨"https://example.com", "secret", none⟩)
          "/api/2.0/sql/warehouses" ⟨"POST", none, []⟩ = .ok req
        ∧ headerLookup req.headers "Authorization" = some ("Bearer " ++ "secret")
        ∧ headerLookup req.headers "Content-Type" = some "application/json"
        ∧ runRequest (createDatabricksClient ⟨"https://example.com", "secret", none⟩)
            "/api/2.0/sql/warehouses" ⟨"POST", none, []⟩ (fun _ => ⟨200, [], .empty⟩)
            = (interpretResponse ((fun _ => ⟨200, [], .empty⟩) req), 1)) :=
  ⟨(c3_empty_token_fails_fast (createDatabricksClient ⟨"https://example.com", "", none⟩)
      "/api/2.0/sql/warehouses" "POST" none (fun _ => ⟨200, [], .empty⟩)).1 rfl,
   (c3_empty_token_fails_fast (createDatabricksClient ⟨"https://example.com", "secret", none⟩)
      "/api/2.0/sql/warehouses" "POST" none (fun _ => ⟨200, [], .empty⟩)).2 (by decide)⟩


/-- C4 counterexample: a host ending in two slashes is stripped only once, so
the normalized base URL still ends with a slash, refuting the claim that the
base URL never has a trailing slash for every host string. -/
theorem c4_double_slash_host_keeps_slash :
    (createDatabricksClient ⟨"https://example.com//", "secret", none⟩).baseUrl
        = "https://example.com/"
      ∧ ("https://example.com/" : String).data.getLast? = some (Char.ofNat 47) := by
  constructor
  · rfl
  · rfl

/-- C4 (amended): construction strips exactly one trailing slash: for every
host t that does not already end in a slash, both t and t followed by one
slash normalize to base URL t, and every outbound URL built from either host
is t followed by the path. (A host ending in several slashes keeps the
remaining ones.) -/
theorem c4_host_normalization (t token path : String) (wid : Option String)
    (hs : t.data.getLast? ≠ some (Char.ofNat 47)) (htok : token ≠ "") :
    (createDatabricksClient ⟨t, token, wid⟩).baseUrl = t
      ∧ (createDatabricksClient ⟨t ++ "/", token, wid⟩).baseUrl = t
      ∧ (∃ req, buildOutbound (createDatabricksClient ⟨t, token, wid⟩) path
            ⟨"GET", none, []⟩ = .ok req ∧ req.url = t ++ path)
      ∧ (∃ req, buildOutbound (createDatabricksClient ⟨t ++ "/", token, wid⟩) path
            ⟨"GET", none, []⟩ = .ok req ∧ req.url = t ++ path) := by
  have hs2 : t.data.getLast? ≠ some '/' := hs
  have hstrip1 : stripTrailingSlash t = t := by
    unfold stripTrailingSlash
    rw [if_neg hs2]
  have hlast : (t ++ "/").data.getLast? = some '/' := by
    show (t.data ++ ['/']).getLast? = some '/'
    simp
  have hdrop : (t.data ++ ['/']).dropLast = t.data := by simp
  have hstrip2 : stripTrailingSlash (t ++ "/") = t := by
    unfold stripTrailingSlash
    rw [if_pos hlast]
    show String.mk ((t.data ++ ['/']).dropLast) = t
    rw [hdrop]
  refine ⟨hstrip1, hstrip2, ?_, ?_⟩
  · refine ⟨⟨(createDatabricksClient ⟨t, token, wid⟩).baseUrl ++ path, "GET",
      mergeHeaders
        [("Authorization", "Bearer " ++ token),
         ("Content-Type", "application/json")] [], none⟩, ?_, ?_⟩
    · unfold buildOutbound getAuthHeaders
      rw [show (createDatabricksClient ⟨t, token, wid⟩).credentials.token = token from rfl,
        if_neg htok]
    · show (createDatabricksClient ⟨t, token, wid⟩).baseUrl ++ path = t ++ path
      rw [show (createDatabricksClient ⟨t, token, wid⟩).baseUrl = t from hstrip1]
  · refine ⟨⟨(createDatabricksClient ⟨t ++ "/", token, wid⟩).baseUrl ++ path, "GET",
      mergeHeaders
        [("Authorization", "Bearer " ++ token),
         ("Content-Type", "application/json")] [], none⟩, ?_, ?_⟩
    · unfold buildOutbound getAuthHeaders
      rw [show (createDatabricksClient ⟨t ++ "/", token, wid⟩).credentials.token = token from rfl,
        if_neg htok]
    · show (createDatabricksClient ⟨t ++ "/", token, wid⟩).baseUrl ++ path = t ++ path
      rw [show (createDatabricksClient ⟨t ++ "/", token, wid⟩).baseUrl = t from hstrip2]

/-- Witness for C4 (amended): the two example hosts with and without one
trailing slash both produce the same outbound URL. -/
theorem c4_host_normalization_witness :
    (createDatabricksClient ⟨"https://example.com", "secret", none⟩).baseUrl
        = "https://example.com"
      ∧ (createDatabricksClient ⟨"https://example.com" ++ "/", "secret", none⟩).baseUrl
        = "https://example.com"
      ∧ (∃ req, buildOutbound (createDatabricksClient ⟨"https://example.com", "secret", none⟩)
            "/api/2.0/sql/warehouses" ⟨"GET", none, []⟩ = .ok req
          ∧ req.url = "https://example.com" ++ "/api/2.0/sql/warehouses")
      ∧ (∃ req, buildOutbound
            (createDatabricksClient ⟨"https://example.com" ++ "/", "secret", none⟩)
            "/api/2.0/sql/warehouses" ⟨"GET", none, []⟩ = .ok req
          ∧ req.url = "https://example.com" ++ "/api/2.0/sql/warehouses") :=
  c4_host_normalization "https://example.com" "secret" "/api/2.0/sql/warehouses" none
    (by decide) (by decide)

/-- C5: every response whose status is neither 2xx nor 429, 401, 403 makes
the pipeline fail with an ApiError whose httpStatus is the response status;
a JSON object body with a truthy message field supplies the message, else a
truthy error field does, and the error code is the error_code field; a body
JSON.parse rejects falls back to the generic message with no code. -/
theorem c5_api_error_extraction (client : DatabricksClientImpl) (endpoint : String)
    (opts : RequestOptions) (st : Nat) (hdrs : List (String × String)) (body : BodyText)
    (htok : client.credentials.token ≠ "")
    (hok : ¬(200 ≤ st ∧ st ≤ 299))
    (h429 : st ≠ 429) (h401 : st ≠ 401) (h403 : st ≠ 403) :
    (runRequest client endpoint opts (fun _ => ⟨st, hdrs, body⟩)).1
        = .error (apiErrorOf ⟨st, hdrs, body⟩)
      ∧ (∃ m c, apiErrorOf ⟨st, hdrs, body⟩ = .apiError m st c)
      ∧ (∀ j v, body = .json j → j.objGet "message" = some v → v.truthy = true →
          apiErrorOf ⟨st, hdrs, body⟩ = .apiError v st (j.objGet "error_code"))
      ∧ (∀ j v, body = .json j →
          (∀ w, j.objGet "message" = some w → w.truthy = false) →
          j.objGet "error" = some v → v.truthy = true →
          apiErrorOf ⟨st, hdrs, body⟩ = .apiError v st (j.objGet "error_code"))
      ∧ (body = .malformed →
          apiErrorOf ⟨st, hdrs, body⟩
            = .apiError (.str ("API error: " ++ toString st)) st none) := by
  refine ⟨?_, ?_, ?_, ?_, ?_⟩
  · rw [runRequest_token_ok client endpoint opts _ htok]
    exact interpretResponse_api ⟨st, hdrs, body⟩ h429 h401 h403 hok
  · cases body with
    | empty => exact ⟨_, _, rfl⟩
    | malformed => exact ⟨_, _, rfl⟩
    | json j => cases j <;> exact ⟨_, _, rfl⟩
  · intro j v hb hm ht
    subst hb
    cases j with
    | obj fields =>
      have hred : apiErrorOf ⟨st, hdrs, .json (.obj fields)⟩
          = .apiError
              (jsOr ((Json.obj fields).objGet "message")
                (jsOr ((Json.obj fields).objGet "error")
                  (.str ("API error: " ++ toString st)))) st
              ((Json.obj fields).objGet "error_code") := rfl
      rw [hred, hm]
      simp [jsOr, ht]
    | null => simp [Json.objGet] at hm
    | bool b => simp [Json.objGet] at hm
    | num n => simp [Json.objGet] at hm
    | str s2 => simp [Json.objGet] at hm
    | arr xs => simp [Json.objGet] at hm
  · intro j v hb hm he ht
    subst hb
    cases j with
    | obj fields =>
      have hred : apiErrorOf ⟨st, hdrs, .json (.obj fields)⟩
          = .apiError
              (jsOr ((Json.obj fields).objGet "message")
                (jsOr ((Json.obj fields).objGet "error")
                  (.str ("API error: " ++ toString st)))) st
              ((Json.obj fields).objGet "error_code") := rfl
      rw [hred, he]
      cases hw : (Json.obj fields).objGet "message" with
      | none => simp [jsOr, ht]
      | some w =>
        have hwf := hm w hw
        simp [jsOr, hwf, ht]
    | null => simp [Json.objGet] at he
    | bool b => simp [Json.objGet] at he
    | num n => simp [Json.objGet] at he
    | str s2 => simp [Json.objGet] at he
    | arr xs => simp [Json.objGet] at he
  · intro hb
    subst hb
    rfl

/-- Witness for C5: a 500 response with JSON body carrying message
internal failure and error_code E1 yields exactly that ApiError, and a 500
response with an unparseable body yields the generic message. -/
theorem c5_api_error_extraction_witness :
    (runRequest (createDatabricksClient ⟨"https://example.com", "secret", none⟩)
        "/api/2.0/sql/warehouses" ⟨"GET", none, []⟩
        (fun _ => ⟨500, [],
          .json (.obj [("message", .str "internal failure"), ("error_code", .str "E1")])⟩)).1
      = .error (.apiError (.str "internal failure") 500 (some (.str "E1")))
    ∧ (runRequest (createDatabricksClient ⟨"https://example.com", "secret", none⟩)
        "/api/2.0/sql/warehouses" ⟨"GET", none, []⟩
        (fun _ => ⟨500, [], .malformed⟩)).1
      = .error (.apiError (.str "API error: 500") 500 none) := by
  constructor
  · have h := c5_api_error_extraction
      (createDatabricksClient ⟨"https://example.com", "secret", none⟩)
      "/api/2.0/sql/warehouses" ⟨"GET", none, []⟩ 500 []
      (.json (.obj [("message", .str "internal failure"), ("error_code", .str "E1")]))
      (by decide) (by omega) (by decide) (by decide) (by decide)
    have h3 := h.2.2.1 (.obj [("message", .str "internal failure"), ("error_code", .str "E1")])
      (.str "internal failure") rfl rfl rfl
    exact h.1.trans (congrArg RequestOutcome.error h3)
  · have h := c5_api_error_extraction
      (createDatabricksClient ⟨"https://example.com", "secret", none⟩)
      "/api/2.0/sql/warehouses" ⟨"GET", none, []⟩ 500 [] .malformed
      (by decide) (by omega) (by decide) (by decide) (by decide)
    exact h.1.trans (congrArg RequestOutcome.error (h.2.2.2.2 rfl))

/-- C6: a 2xx response other than 204 whose non-empty body JSON.parse
rejects makes the pipeline end in the propagated parse exception: the
outcome is not converted to any normalized error and is not a silent
success. -/
theorem c6_parse_failure_propagates (client : DatabricksClientImpl) (endpoint : String)
    (opts : RequestOptions) (st : Nat) (hdrs : List (String × String))
    (htok : client.credentials.token ≠ "")
    (h2xx : 200 ≤ st ∧ st ≤ 299) (h204 : st ≠ 204) :
    (runRequest client endpoint opts (fun _ => ⟨st, hdrs, .malformed⟩)).1
        = .jsonParseException
      ∧ (∀ e, (runRequest client endpoint opts (fun _ => ⟨st, hdrs, .malformed⟩)).1
          ≠ .error e)
      ∧ (∀ v, (runRequest client endpoint opts (fun _ => ⟨st, hdrs, .malformed⟩)).1
          ≠ .success v) := by
  have h1 : (runRequest client endpoint opts (fun _ => ⟨st, hdrs, .malformed⟩)).1
      = .jsonParseException := by
    rw [runRequest_token_ok client endpoint opts _ htok]
    rw [interpretResponse_2xx ⟨st, hdrs, .malformed⟩ h2xx h204]
  refine ⟨h1, ?_, ?_⟩
  · intro e h
    rw [h1] at h
    exact RequestOutcome.noConfusion h
  · intro v h
    rw [h1] at h
    exact RequestOutcome.noConfusion h

/-- Witness for C6: a 200 response with a malformed body propagates the
parse exception. -/
theorem c6_parse_failure_propagates_witness :
    (runRequest (createDatabricksClient ⟨"https://example.com", "secret", none⟩)
        "/api/2.0/sql/warehouses" ⟨"GET", none, []⟩
        (fun _ => ⟨200, [], .malformed⟩)).1 = .jsonParseException
    ∧ (∀ e, (runRequest (createDatabricksClient ⟨"https://example.com", "secret", none⟩)
        "/api/2.0/sql/warehouses" ⟨"GET", none, []⟩
        (fun _ => ⟨200, [], .malformed⟩)).1 ≠ .error e)
    ∧ (∀ v, (runRequest (createDatabricksClient ⟨"https://example.com", "secret", none⟩)
        "/api/2.0/sql/warehouses" ⟨"GET", none, []⟩
        (fun _ => ⟨200, [], .malformed⟩)).1 ≠ .success v) :=
  c6_parse_failure_propagates (createDatabricksClient ⟨"https://example.com", "secret", none⟩)
    "/api/2.0/sql/warehouses" ⟨"GET", none, []⟩ 200 [] (by decide) (by omega) (by decide)


/-- C7: the post/put/patch/delete wrappers omit the body entirely for falsy
(empty or undefined) payloads — in particular the null and undefined payloads
send no body, and no sent body is ever the bare text undefined or the bare
text null — and for every truthy payload the body sent is exactly the JSON
encoding of that payload. -/
theorem c7_wrapper_body_encoding (client : DatabricksClientImpl) (endpoint : String)
    (payload : Option Json) (transport : Transport)
    (htok : client.credentials.token ≠ "") :
    jsBody none = none
      ∧ jsBody (some .null) = none
      ∧ (∀ p, p.truthy = false → jsBody (some p) = none)
      ∧ (∀ p, p.truthy = true → jsBody (some p) = some p.stringify)
      ∧ (∀ s, jsBody payload = some s → s ≠ "undefined" ∧ s ≠ "null")
      ∧ (∃ req, buildOutbound client endpoint ⟨"POST", jsBody payload, []⟩ = .ok req
          ∧ req.body = jsBody payload
          ∧ clientPost client endpoint payload transport
              = (interpretResponse (transport req), 1))
      ∧ (∃ req, buildOutbound client endpoint ⟨"PUT", jsBody payload, []⟩ = .ok req
          ∧ req.body = jsBody payload
          ∧ clientPut client endpoint payload transport
              = (interpretResponse (transport req), 1))
      ∧ (∃ req, buildOutbound client endpoint ⟨"PATCH", jsBody payload, []⟩ = .ok req
          ∧ req.body = jsBody payload
          ∧ clientPatch client endpoint payload transport
              = (interpretResponse (transport req), 1))
      ∧ (∃ req, buildOutbound client endpoint ⟨"DELETE", jsBody payload, []⟩ = .ok req
          ∧ req.body = jsBody payload
          ∧ clientDelete client endpoint payload transport
              = (interpretResponse (transport req), 1)) := by
  refine ⟨rfl, rfl, ?_, ?_, ?_, ?_, ?_, ?_, ?_⟩
  · intro p hp
    simp [jsBody, hp]
  · intro p hp
    simp [jsBody, hp]
  · intro s hsb
    cases payload with
    | none => exact absurd hsb (by simp [jsBody])
    | some p =>
      by_cases hp : p.truthy = true
      · simp [jsBody, hp] at hsb
        subst hsb
        exact stringify_ne_undefined_null p hp
      · have hp2 : p.truthy = false := by
          revert hp
          cases p.truthy <;> simp
        simp [jsBody, hp2] at hsb
  · refine ⟨⟨client.baseUrl ++ endpoint, "POST",
      mergeHeaders
        [("Authorization", "Bearer " ++ client.credentials.token),
         ("Content-Type", "application/json")] [], jsBody payload⟩, ?_, rfl, ?_⟩
    · unfold buildOutbound getAuthHeaders
      rw [if_neg htok]
    · unfold clientPost
      rw [runRequest_token_ok client endpoint ⟨"POST", jsBody payload, []⟩ transport htok]
  · refine ⟨⟨client.baseUrl ++ endpoint, "PUT",
      mergeHeaders
        [("Authorization", "Bearer " ++ client.credentials.token),
         ("Content-Type", "application/json")] [], jsBody payload⟩, ?_, rfl, ?_⟩
    · unfold buildOutbound getAuthHeaders
      rw [if_neg htok]
    · unfold clientPut
      rw [runRequest_token_ok client endpoint ⟨"PUT", jsBody payload, []⟩ transport htok]
  · refine ⟨⟨client.baseUrl ++ endpoint, "PATCH",
      mergeHeaders
        [("Authorization", "Bearer " ++ client.credentials.token),
         ("Content-Type", "application/json")] [], jsBody payload⟩, ?_, rfl, ?_⟩
    · unfold buildOutbound getAuthHeaders
      rw [if_neg htok]
    · unfold clientPatch
      rw [runRequest_token_ok client endpoint ⟨"PATCH", jsBody payload, []⟩ transport htok]
  · refine ⟨⟨client.baseUrl ++ endpoint, "DELETE",
      mergeHeaders
        [("Authorization", "Bearer " ++ client.credentials.token),
         ("Content-Type", "application/json")] [], jsBody payload⟩, ?_, rfl, ?_⟩
    · unfold buildOutbound getAuthHeaders
      rw [if_neg htok]
    · unfold clientDelete
      rw [runRequest_token_ok client endpoint ⟨"DELETE", jsBody payload, []⟩ transport htok]

/-- Witness for C7: a truthy object payload is sent as its JSON encoding,
and the null payload sends no body. -/
theorem c7_wrapper_body_encoding_witness :
    jsBody (some (Json.obj [("a", Json.num 1)])) = some "\x7b\"a\":1\x7d"
      ∧ jsBody (some .null) = none
      ∧ jsBody none = none := by
  have h := c7_wrapper_body_encoding
    (createDatabricksClient ⟨"https://example.com", "secret", none⟩)
    "/api/2.1/jobs/create" (some (Json.obj [("a", Json.num 1)]))
    (fun _ => ⟨200, [], .empty⟩) (by decide)
  refine ⟨?_, h.2.1, h.1⟩
  have h4 := h.2.2.2.1 (Json.obj [("a", Json.num 1)]) rfl
  rw [h4]
  simp [Json.stringify, stringifyFields, intRepr, natDigitsRepr, escapeString, escapeChar]
  rfl

/-- C8: a list facade that unwraps a top-level envelope key returns exactly
the value under that key of the decoded 200 response when it is present (and
truthy, as every JSON array is), and the empty array when the key is absent;
shown for listWarehouses with key warehouses and listClusters with key
clusters. -/
theorem c8_list_envelope (client : DatabricksClientImpl)
    (fs : List (String × Json)) (hdrs : List (String × String))
    (htok : client.credentials.token ≠ "") :
    (∀ v, Json.objGet (.obj fs) "warehouses" = some v → v.truthy = true →
        listWarehouses client (fun _ => ⟨200, hdrs, .json (.obj fs)⟩) = .result v)
      ∧ (Json.objGet (.obj fs) "warehouses" = none →
        listWarehouses client (fun _ => ⟨200, hdrs, .json (.obj fs)⟩)
          = .result (.arr []))
      ∧ (∀ v, Json.objGet (.obj fs) "clusters" = some v → v.truthy = true →
        listClusters client (fun _ => ⟨200, hdrs, .json (.obj fs)⟩) = .result v)
      ∧ (Json.objGet (.obj fs) "clusters" = none →
        listClusters client (fun _ => ⟨200, hdrs, .json (.obj fs)⟩)
          = .result (.arr [])) := by
  have hw : listWarehouses client (fun _ => ⟨200, hdrs, .json (.obj fs)⟩)
      = .result (jsOr (Json.objGet (.obj fs) "warehouses") (.arr [])) := by
    unfold listWarehouses clientGet
    rw [runRequest_token_ok client _ _ _ htok]
    rw [interpretResponse_2xx ⟨200, hdrs, .json (.obj fs)⟩
      (show (200 : Nat) ≤ 200 ∧ (200 : Nat) ≤ 299 by omega) (show (200 : Nat) ≠ 204 by omega)]
    rfl
  have hc : listClusters client (fun _ => ⟨200, hdrs, .json (.obj fs)⟩)
      = .result (jsOr (Json.objGet (.obj fs) "clusters") (.arr [])) := by
    unfold listClusters clientGet
    rw [runRequest_token_ok client _ _ _ htok]
    rw [interpretResponse_2xx ⟨200, hdrs, .json (.obj fs)⟩
      (show (200 : Nat) ≤ 200 ∧ (200 : Nat) ≤ 299 by omega) (show (200 : Nat) ≠ 204 by omega)]
    rfl
  refine ⟨?_, ?_, ?_, ?_⟩
  · intro v hv ht
    rw [hw, hv]
    simp [jsOr, ht]
  · intro hv
    rw [hw, hv]
    rfl
  · intro v hv ht
    rw [hc, hv]
    simp [jsOr, ht]
  · intro hv
    rw [hc, hv]
    rfl

/-- Witness for C8: a 200 body with a warehouses array returns exactly that
array in order; a 200 body without the clusters key returns the empty
array. -/
theorem c8_list_envelope_witness :
    listWarehouses (createDatabricksClient ⟨"https://example.com", "secret", none⟩)
        (fun _ => ⟨200, [],
          .json (.obj [("warehouses", .arr [.num 1, .num 2, .num 3])])⟩)
      = .result (.arr [.num 1, .num 2, .num 3])
    ∧ listClusters (createDatabricksClient ⟨"https://example.com", "secret", none⟩)
        (fun _ => ⟨200, [], .json (.obj [])⟩) = .result (.arr []) := by
  constructor
  · exact (c8_list_envelope (createDatabricksClient ⟨"https://example.com", "secret", none⟩)
      [("warehouses", .arr [.num 1, .num 2, .num 3])] [] (by decide)).1
      (.arr [.num 1, .num 2, .num 3]) rfl rfl
  · exact (c8_list_envelope (createDatabricksClient ⟨"https://example.com", "secret", none⟩)
      [] [] (by decide)).2.2.2 rfl

/-- C9: validateCredentials fails with the message naming the
X-Databricks-Host header when the host is empty, fails with the distinct
message naming the X-Databricks-Token header when the host is non-empty and
the token is empty, returns normally when both are non-empty; the /mcp
handler runs it on the parsed credentials before anything else and answers
unauthorized with that message, performing zero outbound Databricks requests
in every case. -/
theorem c9_validate_credentials (c : TenantCredentials) (hdrs : List (String × String)) :
    (c.host = "" → validateCredentials c
        = .error "Missing X-Databricks-Host header. Provide your Databricks workspace URL.")
      ∧ (c.host ≠ "" → c.token = "" → validateCredentials c
        = .error "Missing X-Databricks-Token header. Provide your Databricks personal access token.")
      ∧ (c.host ≠ "" → c.token ≠ "" → validateCredentials c = .ok)
      ∧ ("Missing X-Databricks-Host header. Provide your Databricks workspace URL."
          ≠ "Missing X-Databricks-Token header. Provide your Databricks personal access token.")
      ∧ (∀ m, validateCredentials (parseTenantCredentials hdrs) = .error m →
          handleMcpPost hdrs = (.unauthorized m, 0))
      ∧ (handleMcpPost hdrs).2 = 0 := by
  refine ⟨?_, ?_, ?_, by decide, ?_, ?_⟩
  · intro h
    unfold validateCredentials
    rw [if_pos h]
  · intro h1 h2
    unfold validateCredentials
    rw [if_neg h1, if_pos h2]
  · intro h1 h2
    unfold validateCredentials
    rw [if_neg h1, if_neg h2]
  · intro m hm
    simp only [handleMcpPost]
    rw [hm]
  · simp only [handleMcpPost]
    cases validateCredentials (parseTenantCredentials hdrs) <;> rfl

/-- Witness for C9: the three credential shapes produce the three specified
results, and the handler answers unauthorized with the host message when the
host header is missing. -/
theorem c9_validate_credentials_witness :
    validateCredentials ⟨"", "tok", none⟩
        = .error "Missing X-Databricks-Host header. Provide your Databricks workspace URL."
      ∧ validateCredentials ⟨"https://example.com", "", none⟩
        = .error "Missing X-Databricks-Token header. Provide your Databricks personal access token."
      ∧ validateCredentials ⟨"https://example.com", "tok", none⟩ = .ok
      ∧ handleMcpPost [("X-Databricks-Token", "tok")]
        = (.unauthorized
            "Missing X-Databricks-Host header. Provide your Databricks workspace URL.", 0) :=
  ⟨(c9_validate_credentials ⟨"", "tok", none⟩ []).1 rfl,
   (c9_validate_credentials ⟨"https://example.com", "", none⟩ []).2.1 (by decide) rfl,
   (c9_validate_credentials ⟨"https://example.com", "tok", none⟩ []).2.2.1
     (by decide) (by decide),
   (c9_validate_credentials ⟨"", "tok", none⟩
     [("X-Databricks-Token", "tok")]).2.2.2.2.1 _ rfl⟩

/-- C10: the pipeline is stateless and deterministic: the client is a value
fixed at construction, a sequence of calls is a plain map with no threading
of state, so the outcome of a call appended after any earlier calls equals
the outcome of running it alone, and the same descriptor issued twice
against a stub transport yields two identical outcomes. -/
theorem c10_pipeline_stateless (client : DatabricksClientImpl) (transport : Transport)
    (pre : List (String × RequestOptions)) (d : String × RequestOptions) :
    runCalls client transport (pre ++ [d])
        = runCalls client transport pre ++ [(runRequest client d.1 d.2 transport).1]
      ∧ runCalls client transport [d, d]
        = [(runRequest client d.1 d.2 transport).1,
           (runRequest client d.1 d.2 transport).1]
      ∧ createDatabricksClient client.credentials
        = ⟨client.credentials, stripTrailingSlash client.credentials.host⟩ := by
  refine ⟨?_, rfl, rfl⟩
  induction pre with
  | nil => rfl
  | cons x xs ih => simp [runCalls, ih]

end DatabricksMcp
